import Mathlib

/-!
Verification development for a small web-scraping repository consisting of
`futuretools_parser.py` (the listing extractor, the core under study),
`text_summarizer.py` (summarization wrapper), `web_parser.py` (fetch
collaborator) and `information_organizer.py` (the presenter).

The HTML document tree handed over by the fetch collaborator is modelled as a
rose tree (`Node`); the BeautifulSoup operations used by the source
(`find`, `find_all`, `select`, `get_text`, attribute access) are embedded as
pure functions over that tree.  Python string primitives used by the source
(`startswith`, `in`, `strip`, slicing, `split`) are embedded over the
character lists of Lean strings so that every definition evaluates by kernel
reduction.  The network fetch is represented by an `Option Node` argument
(`none` models a failed fetch) and the Hugging Face pipeline by an
`Option (String → Nat → Nat → ModelResult)` (`none` models the disabled
state), matching the collaborator interfaces in the specification.
-/

/-- Model of Python `s.startswith(p)` on character lists. -/
def pyStartsWith (s p : String) : Bool := p.data.isPrefixOf s.data

/-- Occurrence check behind `pyContains`: does `sub` occur contiguously in the
second list? -/
def containsAux (sub : List Char) : List Char → Bool
  | [] => sub.isEmpty
  | c :: rest => sub.isPrefixOf (c :: rest) || containsAux sub rest

/-- Model of Python `sub in s` (substring containment) on character lists. -/
def pyContains (s sub : String) : Bool := containsAux sub.data s.data

/-- Model of Python `s.strip()`: drop leading and trailing whitespace. -/
def pyStrip (s : String) : String :=
  ⟨((s.data.dropWhile Char.isWhitespace).reverse.dropWhile Char.isWhitespace).reverse⟩

/-- Model of Python slicing `s[n:]` (drop the first `n` characters). -/
def pyDrop (s : String) (n : Nat) : String := ⟨s.data.drop n⟩

/-- Model of Python slicing `s[:n]` (take the first `n` characters). -/
def pyTake (s : String) (n : Nat) : String := ⟨s.data.take n⟩

/-- Accumulator pass behind `pySplitWs`: splits a character list on runs of
whitespace, discarding empty chunks, as Python `str.split()` does. -/
def wordsAux : List Char → List Char → List String
  | [], acc => if acc.isEmpty then [] else [⟨acc.reverse⟩]
  | c :: cs, acc =>
    if c.isWhitespace then
      if acc.isEmpty then wordsAux cs [] else ⟨acc.reverse⟩ :: wordsAux cs []
    else wordsAux cs (c :: acc)

/-- Model of Python `s.split()` with no argument. -/
def pySplitWs (s : String) : List String := wordsAux s.data []

/-- Model of Python `len(s.split())`, the whitespace word count. -/
def pyWordCount (s : String) : Nat := (pySplitWs s).length

/-- Model of Python `sep.join(parts)`. -/
def joinSep (sep : String) : List String → String
  | [] => ""
  | [x] => x
  | x :: y :: xs => x ++ sep ++ joinSep sep (y :: xs)

/-- Rose-tree model of the parsed HTML document handed over by the fetch
collaborator (the BeautifulSoup object).  Attribute values are kept as the
raw strings of the markup; the `class` attribute is the raw space-separated
value. -/
inductive Node where
  | elem (tag : String) (attrs : List (String × String)) (children : List Node)
  | text (s : String)
deriving Repr

mutual

/-- Proper descendants of a node in document (pre-)order; the search space of
the BeautifulSoup `find` and `find_all` calls of the source. -/
def Node.descendants : Node → List Node
  | .text _ => []
  | .elem _ _ cs => descendantsList cs

/-- Pre-order listing of a forest: each root followed by its subtree. -/
def descendantsList : List Node → List Node
  | [] => []
  | c :: rest => c :: (Node.descendants c ++ descendantsList rest)

end

mutual

/-- All text-node strings below a node in document order, the raw material of
BeautifulSoup `get_text`. -/
def Node.strings : Node → List String
  | .text s => [s]
  | .elem _ _ cs => stringsList cs

/-- Text-node strings of a forest in document order. -/
def stringsList : List Node → List String
  | [] => []
  | c :: rest => Node.strings c ++ stringsList rest

end

/-- Tag name of an element node, `none` for a text node. -/
def Node.tag? : Node → Option String
  | .elem t _ _ => some t
  | .text _ => none

/-- Attribute lookup, as BeautifulSoup `tag.get(key)` without default. -/
def Node.getAttr? (n : Node) (key : String) : Option String :=
  match n with
  | .elem _ attrs _ => (attrs.find? (fun p => p.1 == key)).map (fun p => p.2)
  | .text _ => none

/-- Attribute lookup with default, as BeautifulSoup `tag.get(key, dflt)`. -/
def Node.attrD (n : Node) (key dflt : String) : String := (n.getAttr? key).getD dflt

/-- The whitespace-separated class tokens of a node, as BeautifulSoup stores
the multi-valued `class` attribute. -/
def Node.classTokens (n : Node) : List String :=
  pySplitWs ((n.getAttr? "class").getD "")

/-- Model of `container.find(tags, class_=cl)`: the first descendant in
document order whose tag is in `tags` and, when a class filter is given,
one of whose class tokens is in the filter list. -/
def Node.findElem (n : Node) (tags : List String) (classFilter : Option (List String)) :
    Option Node :=
  n.descendants.find? (fun d =>
    (match d.tag? with | some t => tags.contains t | none => false) &&
    (match classFilter with
     | none => true
     | some cl => d.classTokens.any (fun c => cl.contains c)))

/-- Model of `container.find('a', href=p)`: the first descendant anchor whose
`href` attribute is present and satisfies the predicate (an absent attribute
never matches, as the lambda of the source receives a falsy `None`). -/
def Node.findLinkWithHref (n : Node) (p : String → Bool) : Option Node :=
  n.descendants.find? (fun d =>
    d.tag? == some "a" &&
    (match d.getAttr? "href" with | some h => p h | none => false))

/-- Model of `container.find_all('a', href=True)`. -/
def Node.findAllLinks (n : Node) : List Node :=
  n.descendants.filter (fun d => d.tag? == some "a" && (d.getAttr? "href").isSome)

/-- Model of `container.find_all(tags)`. -/
def Node.findAllTags (n : Node) (tags : List String) : List Node :=
  n.descendants.filter (fun d =>
    match d.tag? with | some t => tags.contains t | none => false)

/-- Model of `get_text(strip=True)`: every text node stripped, empty pieces
dropped, concatenated without separator. -/
def Node.getTextStrip (n : Node) : String :=
  joinSep "" ((n.strings.map pyStrip).filter (fun s => s != ""))

/-- Model of `get_text(separator=sep, strip=True)`. -/
def Node.getTextSepStrip (n : Node) (sep : String) : String :=
  joinSep sep ((n.strings.map pyStrip).filter (fun s => s != ""))

/-- Model of `soup.select` with a disjunction of `[class*="sub"]` attribute
selectors: all elements, in document order, whose raw class attribute value
contains one of the substrings. -/
def Node.selectClassContainsAny (root : Node) (subs : List String) : List Node :=
  root.descendants.filter (fun d =>
    match d.getAttr? "class" with
    | some cv => subs.any (fun sub => pyContains cv sub)
    | none => false)

/-- One extracted tool record, the dictionary appended to `tools_found` by
`extract_tools_from_futuretools`. -/
structure ToolRecord where
  name : String
  website_link : String
  futuretools_link : String
  description : String
  summarized_description : String
deriving Repr, DecidableEq

/-- The run counters of `extract_tools_from_futuretools`: containers examined
(`len(tool_containers)`), tools accepted (`processed_tools_count`) and the
`missing_*_count` counters printed in the final summary. -/
structure ExtractionTally where
  containers_examined : Nat
  processed_tools_count : Nat
  missing_names_count : Nat
  missing_website_links_count : Nat
  missing_ft_links_count : Nat
  missing_descriptions_count : Nat
deriving Repr, DecidableEq

/-- The ordered name selector chain `name_element_selectors` of the source:
tag set, optional class filter, and whether the stage checks text content
(true only for the final `fallback_first_link_text` stage). -/
def name_element_selectors : List (List String × Option (List String) × Bool) :=
  [(["h2", "h3", "h4"], some ["tool-name", "tool-title", "card-title"], false),
   (["h2", "h3", "h4"], none, false),
   (["a"], some ["title", "name"], false),
   (["a"], none, true)]

/-- The name selector loop of the source: for each stage run `find`; a found
element ends the loop, except that at a text-checking stage an element with
empty stripped text is set back to `None` and the loop continues. -/
def findNameElement (container : Node) :
    List (List String × Option (List String) × Bool) → Option Node
  | [] => none
  | (tags, classFilter, checkText) :: rest =>
    match container.findElem tags classFilter with
    | some e =>
      if checkText && e.getTextStrip == "" then findNameElement container rest
      else some e
    | none => findNameElement container rest

/-- The name of a container together with `current_tool_has_name`: the
stripped text of the selected element when one was found (the flag holds only
when that text is non-empty), the sentinel otherwise. -/
def extractName (container : Node) : String × Bool :=
  match findNameElement container name_element_selectors with
  | some e => (e.getTextStrip, e.getTextStrip != "")
  | none => ("N/A", false)

/-- Base origin prefixed to relative internal links. -/
def futuretools_base_url : String := "https://www.futuretools.io"

/-- The internal-path test `href.startswith(('/tool/', '/tools/'))`. -/
def ftPathOk (h : String) : Bool :=
  pyStartsWith h "/tool/" || pyStartsWith h "/tools/"

/-- Resolution step of the futuretools internal link (source lines before the
absolutization): the container itself when it is an anchor with a matching
href, else the first descendant anchor whose href is non-empty and matches
one of the internal prefixes, paired with `current_tool_has_ft_link`. -/
def extractFtLinkRaw (container : Node) : String × Bool :=
  if container.tag? == some "a" && ftPathOk (container.attrD "href" "") then
    (container.attrD "href" "", true)
  else
    match container.findLinkWithHref (fun h => h != "" && ftPathOk h) with
    | some e => (e.attrD "href" "", true)
    | none => ("N/A", false)

/-- The futuretools internal link of a container together with
`current_tool_has_ft_link`: the resolution step followed by the
absolutization of the source (a resolved link starting with a slash is
prefixed with the base origin). -/
def extractFtLink (container : Node) : String × Bool :=
  if (extractFtLinkRaw container).2 && pyStartsWith (extractFtLinkRaw container).1 "/" then
    (futuretools_base_url ++ (extractFtLinkRaw container).1, true)
  else extractFtLinkRaw container

/-- The class markers tried first for the external website link. -/
def external_link_classes : List String :=
  ["external-link", "website-button", "tool-website-link", "outbound", "visit-tool-button"]

/-- The validity test applied to the class-marked external link candidate:
`website_link and website_link.startswith('http') and 'futuretools.io' not in
website_link`. -/
def validExternalHref (h : String) : Bool :=
  h != "" && pyStartsWith h "http" && !(pyContains h "futuretools.io")

/-- The external website link of a container together with
`current_tool_has_website_link`: a class-marked candidate is used only when
its href passes `validExternalHref` (and is otherwise reset to the sentinel
without trying the fallback); when no class-marked candidate exists, the first
descendant anchor whose href starts with `http`, does not contain the source
domain, and differs from the resolved internal link is used. -/
def extractWebsiteLink (container : Node) (futuretools_link_internal : String) :
    String × Bool :=
  match container.findElem ["a"] (some external_link_classes) with
  | some e =>
    if validExternalHref (e.attrD "href" "") then (e.attrD "href" "", true)
    else ("N/A", false)
  | none =>
    match container.findAllLinks.find? (fun e =>
        pyStartsWith (e.attrD "href" "") "http" &&
        !(pyContains (e.attrD "href" "") "futuretools.io") &&
        (e.attrD "href" "") != futuretools_link_internal) with
    | some e => (e.attrD "href" "", true)
    | none => ("N/A", false)

/-- The class markers tried first for the description. -/
def description_classes : List String :=
  ["description", "tool-description", "card-text", "item-description", "tool-card-description"]

/-- The first two description stages of the source: a class-marked paragraph
or div (its stripped text taken even when empty, the flag holding only when
it is non-empty), else the first paragraph whose non-empty stripped text
exceeds 20 characters. -/
def extractDescriptionBase (container : Node) : String × Bool :=
  match container.findElem ["p", "div"] (some description_classes) with
  | some e => (e.getTextStrip, e.getTextStrip != "")
  | none =>
    match (container.findAllTags ["p"]).findSome? (fun p =>
        if p.getTextStrip != "" && p.getTextStrip.length > 20 then some p.getTextStrip
        else none) with
    | some t => (t, true)
    | none => ("N/A", false)

/-- The full description extraction including the last-resort fallback of the
source: when nothing was found and a name was resolved, the container text
(space-separated, stripped, with the name stripped from its front when it is
the prefix) is used when longer than 30 characters and different from the
internal link. -/
def extractDescription (container : Node) (name : String) (hasName : Bool)
    (futuretools_link_internal : String) : String × Bool :=
  let base := extractDescriptionBase container
  if !base.2 && hasName then
    let containerText := container.getTextSepStrip " "
    let containerText2 :=
      if name != "N/A" && pyStartsWith containerText name then
        pyStrip (pyDrop containerText name.length)
      else containerText
    if containerText2.length > 30 && containerText2 != futuretools_link_internal then
      (containerText2, true)
    else base
  else base

/-- The description of a container as computed inside the container loop of
the source, with the name and internal-link inputs it feeds from. -/
def extractedDescription (container : Node) : String × Bool :=
  extractDescription container (extractName container).1 (extractName container).2
    (extractFtLink container).1

/-- The `summarized_description` of a container: the summarizer collaborator
called with bounds (50, 15) when a description was resolved with more than 30
words, the description itself when one was resolved with at most 30 words,
and the initial sentinel otherwise. -/
def summarizedDescription (summarize : String → Nat → Nat → String)
    (container : Node) : String :=
  let d := extractedDescription container
  if d.2 && pyWordCount d.1 > 30 then summarize d.1 50 15
  else if d.2 then d.1
  else "N/A"

/-- Outcome of one iteration of the container loop: the appended record, if
any, and the increments applied to the run counters by that iteration. -/
structure ContainerStep where
  record : Option ToolRecord
  processed_inc : Nat
  missing_name_inc : Nat
  missing_website_inc : Nat
  missing_ft_inc : Nat
  missing_desc_inc : Nat
deriving Repr

/-- One iteration of the container loop of the source: extract the fields,
then append a record exactly when a name and at least one link were resolved
(counting the per-field misses of the accepted record); a container with a
name but no usable link increments both link miss counters; a container
without a name increments the name miss counter. -/
def processContainer (summarize : String → Nat → Nat → String) (container : Node) :
    ContainerStep :=
  let nameR := extractName container
  let ftR := extractFtLink container
  let webR := extractWebsiteLink container ftR.1
  let descR := extractedDescription container
  if nameR.2 && (webR.2 || ftR.2) then
    { record := some ⟨nameR.1, webR.1, ftR.1, descR.1, summarizedDescription summarize container⟩,
      processed_inc := 1,
      missing_name_inc := 0,
      missing_website_inc := if webR.2 then 0 else 1,
      missing_ft_inc := if ftR.2 then 0 else 1,
      missing_desc_inc := if descR.2 then 0 else 1 }
  else if nameR.2 then
    { record := none, processed_inc := 0, missing_name_inc := 0,
      missing_website_inc := 1, missing_ft_inc := 1, missing_desc_inc := 0 }
  else
    { record := none, processed_inc := 0, missing_name_inc := 1,
      missing_website_inc := 0, missing_ft_inc := 0, missing_desc_inc := 0 }

/-- The container loop: accepted records in container order together with the
accumulated counters (containers examined counts every iteration). -/
def processContainers (summarize : String → Nat → Nat → String) :
    List Node → List ToolRecord × ExtractionTally
  | [] => ([], ⟨0, 0, 0, 0, 0, 0⟩)
  | c :: rest =>
    let s := processContainer summarize c
    let acc := processContainers summarize rest
    ((match s.record with | some t => t :: acc.1 | none => acc.1),
     ⟨acc.2.containers_examined + 1,
      acc.2.processed_tools_count + s.processed_inc,
      acc.2.missing_names_count + s.missing_name_inc,
      acc.2.missing_website_links_count + s.missing_website_inc,
      acc.2.missing_ft_links_count + s.missing_ft_inc,
      acc.2.missing_descriptions_count + s.missing_desc_inc⟩)

/-- Embedding of `extract_tools_from_futuretools`.  The fetch collaborator is
represented by its result: `none` models a failed fetch (and the absent soup
case), `some soup` the parsed document.  Container discovery tries elements
whose class value contains "tool-card", then elements whose class value
contains "item" or "collection-item"; with no containers the function returns
an empty list.  The summarizer collaborator is passed in as a function.  The
returned tally holds the counters the source prints in its final summary. -/
def extract_tools_from_futuretools (summarize : String → Nat → Nat → String)
    (parsed_data : Option Node) : List ToolRecord × ExtractionTally :=
  match parsed_data with
  | none => ([], ⟨0, 0, 0, 0, 0, 0⟩)
  | some soup =>
    let primary := soup.selectClassContainsAny ["tool-card"]
    let tool_containers :=
      if primary.isEmpty then soup.selectClassContainsAny ["item", "collection-item"]
      else primary
    if tool_containers.isEmpty then ([], ⟨0, 0, 0, 0, 0, 0⟩)
    else processContainers summarize tool_containers

/-- The adjusted missing-name figure printed by the final summary of the
source (the conditional expression inside its print statement). -/
def reported_missing_names (examined processed missing_names : Nat) : Nat :=
  if processed == 0 && examined > 0 then missing_names
  else missing_names + (if missing_names == 0 then examined - processed else 0)

/-- Input of `summarize_text`: a Python value that is either a string or not
a string (covering the `isinstance` check of the source). -/
inductive PyText where
  | str (s : String)
  | nonString
deriving Repr

/-- Result of one call of the underlying Hugging Face pipeline: a summary, or
an exception message caught by the `except` clause of the source. -/
inductive ModelResult where
  | ok (summary_text : String)
  | raised (msg : String)
deriving Repr

/-- The message returned by `summarize_text` when the pipeline is disabled. -/
def pipeline_not_initialized_msg : String :=
  "Summarization pipeline not initialized. Please check installation and logs."

/-- The message returned by `summarize_text` for empty or invalid input. -/
def empty_input_msg : String := "Input text is empty or invalid."

/-- Embedding of `summarize_text`.  The global pipeline is represented by an
optional model function (`none` models the disabled state after a failed
initialization).  The checks mirror the source in order: disabled pipeline,
then falsy or non-string or whitespace-only input, then the pipeline call
with its exception handler. -/
def summarize_text (summarizer : Option (String → Nat → Nat → ModelResult))
    (text : PyText) (max_length min_length : Nat) : String :=
  match summarizer with
  | none => pipeline_not_initialized_msg
  | some model =>
    match text with
    | .nonString => empty_input_msg
    | .str s =>
      if s == "" || (pyStrip s).length == 0 then empty_input_msg
      else
        match model s max_length min_length with
        | .ok t => t
        | .raised e => "Error during summarization: " ++ e

/-- One hyperlink entry of the fetch collaborator output. -/
structure LinkEntry where
  text : String
  href : String
deriving Repr

/-- One video entry of the fetch collaborator output. -/
structure VideoEntry where
  url : String
  title : String
  retrieved_from_url : String
deriving Repr

/-- The dictionary returned by `fetch_and_parse_website`: main text, the
http(s) links, the recognized video links, and the parsed tree. -/
structure PageData where
  text : String
  links : List LinkEntry
  youtube_videos : List VideoEntry
  soup : Node
deriving Repr

/-- The `data` argument of the presenter functions: a list of tool records
(for the futuretools source type), a page dictionary (for the generic source
type), or a falsy absent value. -/
inductive OrganizerData where
  | tools (l : List ToolRecord)
  | page (d : PageData)
  | noData
deriving Repr

/-- Embedding of `format_data_as_list`.  Passing page data with the
futuretools source type, or a non-empty tool list with the generic source
type, raises in the source (attribute errors on mismatched duck types) and is
embedded as an `Except.error`. -/
def format_data_as_list (data : OrganizerData) (source_type : String) :
    Except String String :=
  if source_type == "futuretools" then
    match data with
    | .noData =>
      .ok (joinSep "\n" ["--- AI Tools (List Format) ---",
                         "No tools data provided or tools list is empty."])
    | .tools [] =>
      .ok (joinSep "\n" ["--- AI Tools (List Format) ---",
                         "No tools data provided or tools list is empty."])
    | .tools (t :: ts) =>
      let toolLines := ((t :: ts).enum.map (fun p =>
        ["\nTool " ++ toString (p.1 + 1) ++ ":",
         "  Name: " ++ p.2.name,
         "  Website: " ++ p.2.website_link])).flatten
      .ok (joinSep "\n" ("--- AI Tools (List Format) ---" :: toolLines))
    | .page _ => .error "AttributeError"
  else if source_type == "generic_website" then
    match data with
    | .noData =>
      .ok (joinSep "\n" ["--- Website Content (List Format) ---",
                         "No website data provided."])
    | .tools [] =>
      .ok (joinSep "\n" ["--- Website Content (List Format) ---",
                         "No website data provided."])
    | .tools (_ :: _) => .error "AttributeError"
    | .page d =>
      let linkLines :=
        if d.links.isEmpty then ["\nNo hyperlinks extracted."]
        else "\n--- Hyperlinks ---" ::
          ((d.links.take 10).enum.map (fun p =>
            ["  " ++ toString (p.1 + 1) ++ ". Text: " ++ p.2.text,
             "     Href: " ++ p.2.href])).flatten
      let videoLines :=
        if d.youtube_videos.isEmpty then ["\nNo YouTube videos identified."]
        else "\n--- YouTube Videos ---" ::
          (d.youtube_videos.enum.map (fun p =>
            ["  " ++ toString (p.1 + 1) ++ ". Title: " ++ p.2.title,
             "     URL: " ++ p.2.url])).flatten
      .ok (joinSep "\n" ("--- Website Content (List Format) ---" :: (linkLines ++ videoLines)))
  else .ok "Invalid source_type provided. Use 'futuretools' or 'generic_website'."

/-- Embedding of `format_data_as_paragraphs`.  The global summarizer pipeline
consulted by the generic branch is passed in as the same optional model used
by `summarize_text`.  Mismatched duck types raise in the source and are
embedded as `Except.error`. -/
def format_data_as_paragraphs (summarizer : Option (String → Nat → Nat → ModelResult))
    (data : OrganizerData) (source_type : String) : Except String String :=
  if source_type == "futuretools" then
    match data with
    | .noData =>
      .ok (joinSep "\n\n" ["--- AI Tools (Paragraph Format) ---",
                           "No tools data provided or tools list is empty."])
    | .tools [] =>
      .ok (joinSep "\n\n" ["--- AI Tools (Paragraph Format) ---",
                           "No tools data provided or tools list is empty."])
    | .tools (t :: ts) =>
      let paras := (t :: ts).map (fun tool =>
        let desc :=
          if tool.summarized_description != "" then tool.summarized_description
          else tool.description
        let base := "Tool: " ++ tool.name ++ "\n" ++
                    "Description: " ++ desc ++ "\n" ++
                    "Website: " ++ tool.website_link ++ "\n"
        if tool.futuretools_link != "N/A" then
          base ++ "FutureTools Page: " ++ tool.futuretools_link ++ "\n"
        else base)
      .ok (joinSep "\n\n" ("--- AI Tools (Paragraph Format) ---" :: paras))
    | .page _ => .error "AttributeError"
  else if source_type == "generic_website" then
    match data with
    | .noData =>
      .ok (joinSep "\n\n" ["--- Website Content (Paragraph Format) ---",
                           "No website data provided."])
    | .tools [] =>
      .ok (joinSep "\n\n" ["--- Website Content (Paragraph Format) ---",
                           "No website data provided."])
    | .tools (_ :: _) => .error "AttributeError"
    | .page d =>
      let mainPara :=
        if d.text != "" && summarizer.isSome then
          ["Website Summary:\n" ++ summarize_text summarizer (.str d.text) 150 40]
        else if d.text != "" then
          ["Website Summary:\n(Summarizer not available or text too short). Full text snippet:\n" ++
           pyTake d.text 500 ++ "..."]
        else ["No main text content extracted to summarize."]
      let linkParas :=
        if d.links.isEmpty then []
        else
          let body := joinSep "" ((d.links.take 5).map (fun link =>
            "- " ++ link.text ++ " (" ++ link.href ++ ")\n"))
          let more :=
            if d.links.length > 5 then
              "...and " ++ toString (d.links.length - 5) ++ " more links."
            else ""
          ["Key Hyperlinks Found:\n" ++ body ++ more]
      let videoParas :=
        if d.youtube_videos.isEmpty then []
        else ["YouTube Videos Found:\n" ++ joinSep "" (d.youtube_videos.map (fun v =>
          "- " ++ v.title ++ " (" ++ v.url ++ ")\n"))]
      .ok (joinSep "\n\n" ("--- Website Content (Paragraph Format) ---" ::
                           (mainPara ++ linkParas ++ videoParas)))
  else .ok "Invalid source_type provided. Use 'futuretools' or 'generic_website'."

/-- Modelled from the spec (name extraction, section 4.1): the fallback chain
in which a candidate whose trimmed text is empty is disqualified at every
stage and the chain continues, and whose final stage is the first link with
non-empty text content.  Stated for comparison with `extractName`, the chain
the code actually runs. -/
def nameChainPerSpec (container : Node) : Option String :=
  let candidates : List (Option Node) :=
    [container.findElem ["h2", "h3", "h4"] (some ["tool-name", "tool-title", "card-title"]),
     container.findElem ["h2", "h3", "h4"] none,
     container.findElem ["a"] (some ["title", "name"]),
     container.descendants.find? (fun d => d.tag? == some "a" && d.getTextStrip != "")]
  candidates.findSome? (fun c =>
    match c with
    | some e => if e.getTextStrip != "" then some e.getTextStrip else none
    | none => none)

/-- Identity summarizer collaborator, standing for a pipeline that hands the
text back; used to evaluate the extractor on concrete documents. -/
def smId : String → Nat → Nat → String := fun t _ _ => t

/-- The summarizer collaborator as wired by the source imports when the
pipeline failed to initialize: every call goes through `summarize_text` with
the disabled pipeline. -/
def smDisabled : String → Nat → Nat → String :=
  fun t max_length min_length => summarize_text none (.str t) max_length min_length

/-- Concrete document with three tool-card containers: one accepted with both
links, one with only a name, one empty. -/
def sampleTallyPage : Node :=
  .elem "html" [] [
    .elem "div" [("class", "tool-card")] [
      .elem "h2" [] [.text "Alpha"],
      .elem "a" [("href", "/tool/alpha")] [],
      .elem "a" [("href", "https://alpha.ai")] []],
    .elem "div" [("class", "tool-card")] [
      .elem "h2" [] [.text "Beta"]],
    .elem "div" [("class", "tool-card")] []]

/-- Concrete document whose only container carries a class-marked description
element with empty text (and a name and internal link, so it is accepted). -/
def sampleEmptyDescPage : Node :=
  .elem "html" [] [
    .elem "div" [("class", "tool-card")] [
      .elem "h2" [] [.text "K"],
      .elem "a" [("href", "/tool/k")] [],
      .elem "p" [("class", "description")] []]]

/-- A 31-word description text. -/
def longDescText : String :=
  "a a a a a a a a a a a a a a a a a a a a a a a a a a a a a a a"

/-- Concrete document whose only container carries a 31-word class-marked
description, a name and an internal link. -/
def sampleLongDescPage : Node :=
  .elem "html" [] [
    .elem "div" [("class", "tool-card")] [
      .elem "h2" [] [.text "T"],
      .elem "a" [("href", "/tool/t")] [],
      .elem "p" [("class", "description")] [.text longDescText]]]

/-- Concrete container whose internal-link anchor carries the relative href
of the specification example. -/
def sampleAcmeContainer : Node :=
  .elem "div" [("class", "tool-card")] [
    .elem "a" [("href", "/tool/acme-ai")] [.text "Acme AI"]]

/-- Concrete container in which the primary name stage finds a class-marked
heading with empty text while a later stage would find a link with text. -/
def sampleEmptyHeadingContainer : Node :=
  .elem "div" [("class", "tool-card")] [
    .elem "h2" [("class", "card-title")] [],
    .elem "a" [] [.text "GoodName"]]

/-- Concrete container whose class-marked heading has empty text and which
has no other name candidates. -/
def sampleOnlyEmptyHeading : Node :=
  .elem "div" [] [.elem "h2" [("class", "card-title")] []]

/-- Concrete container whose only name candidate is a link without text. -/
def sampleOnlyEmptyLink : Node :=
  .elem "div" [] [.elem "a" [] []]

/-- Concrete container whose only external-link candidate is class-marked but
points back to the source domain. -/
def sampleSameDomainContainer : Node :=
  .elem "div" [] [
    .elem "a" [("class", "external-link"), ("href", "https://www.futuretools.io/x")] []]

/-- Concrete container with no class-marked external link and one off-domain
absolute link, exercising the fallback search. -/
def sampleFallbackExtContainer : Node :=
  .elem "div" [] [.elem "a" [("href", "https://ex.com")] []]

/-- Concrete container with a short (at most 30 words) class-marked
description, a name and an internal link. -/
def sampleShortDescContainer : Node :=
  .elem "div" [("class", "tool-card")] [
    .elem "h2" [] [.text "S"],
    .elem "a" [("href", "/tool/s")] [],
    .elem "p" [("class", "description")] [.text "a compact description of this tool"]]

/-- Concrete document with no element matching any container selector. -/
def soupNoContainers : Node :=
  .elem "html" [] [.elem "p" [] [.text "hello"]]

/-- Page data with empty text, no links and no videos. -/
def pageEmpty : PageData := ⟨"", [], [], .text ""⟩

/-- A constant model standing for a functioning pipeline in witnesses. -/
def modelConst : String → Nat → Nat → ModelResult := fun _ _ _ => .ok "summary"

/-- The single container of `sampleEmptyDescPage`. -/
def sampleEmptyDescContainer : Node :=
  .elem "div" [("class", "tool-card")] [
    .elem "h2" [] [.text "K"],
    .elem "a" [("href", "/tool/k")] [],
    .elem "p" [("class", "description")] []]

/-- The single container of `sampleLongDescPage`. -/
def sampleLongDescContainer : Node :=
  .elem "div" [("class", "tool-card")] [
    .elem "h2" [] [.text "T"],
    .elem "a" [("href", "/tool/t")] [],
    .elem "p" [("class", "description")] [.text longDescText]]


theorem isPrefixOf_append_ext {p a : List Char} (b : List Char)
    (h : p.isPrefixOf a = true) : p.isPrefixOf (a ++ b) = true := by
  induction p generalizing a with
  | nil => simp [List.isPrefixOf]
  | cons c p ih =>
    cases a with
    | nil => simp [List.isPrefixOf] at h
    | cons d a =>
      simp only [List.isPrefixOf, List.cons_append, Bool.and_eq_true] at h ⊢
      exact ⟨h.1, ih h.2⟩

theorem cons_isPrefixOf_single {c : Char} {p l : List Char}
    (h : (c :: p).isPrefixOf l = true) : [c].isPrefixOf l = true := by
  cases l with
  | nil => simp [List.isPrefixOf] at h
  | cons d l =>
    simp only [List.isPrefixOf, Bool.and_eq_true] at h ⊢
    exact ⟨h.1, trivial⟩

theorem ftPathOk_slash {h : String} (hp : ftPathOk h = true) :
    pyStartsWith h "/" = true := by
  unfold ftPathOk pyStartsWith at *
  rw [Bool.or_eq_true] at hp
  rcases hp with h1 | h1
  · have e : "/tool/".data = '/' :: "tool/".data := rfl
    rw [e] at h1
    have e2 : "/".data = ['/'] := rfl
    rw [e2]
    exact cons_isPrefixOf_single h1
  · have e : "/tools/".data = '/' :: "tools/".data := rfl
    rw [e] at h1
    have e2 : "/".data = ['/'] := rfl
    rw [e2]
    exact cons_isPrefixOf_single h1

theorem startsWith_http_ne_na {w : String} (h : pyStartsWith w "http" = true) :
    w ≠ "N/A" := by
  intro he
  rw [he] at h
  exact absurd h (by decide)

theorem base_append_ne_na (raw : String) : futuretools_base_url ++ raw ≠ "N/A" := by
  intro he
  have hl := congrArg String.length he
  rw [String.length_append] at hl
  have h1 : futuretools_base_url.length = 26 := by decide
  have h2 : ("N/A" : String).length = 3 := by decide
  omega

theorem findLinkWithHref_some {n : Node} {p : String → Bool} {e : Node}
    (h : n.findLinkWithHref p = some e) : p (e.attrD "href" "") = true := by
  have hp := List.find?_some h
  rw [Bool.and_eq_true] at hp
  obtain ⟨-, hm⟩ := hp
  cases hh : e.getAttr? "href" with
  | none => rw [hh] at hm; exact absurd hm Bool.false_ne_true
  | some hv =>
    rw [hh] at hm
    simpa [Node.attrD, hh] using hm

theorem extractFtLinkRaw_true {c : Node} {l : String}
    (h : extractFtLinkRaw c = (l, true)) : ftPathOk l = true := by
  unfold extractFtLinkRaw at h
  split at h
  · rename_i hcond
    rw [Bool.and_eq_true] at hcond
    have hl : l = c.attrD "href" "" := (congrArg Prod.fst h).symm
    rw [hl]
    exact hcond.2
  · split at h
    · rename_i e hfind
      have hp := findLinkWithHref_some hfind
      rw [Bool.and_eq_true] at hp
      have hl : l = e.attrD "href" "" := (congrArg Prod.fst h).symm
      rw [hl]
      exact hp.2
    · exact absurd (congrArg Prod.snd h) Bool.false_ne_true

theorem extractFtLink_true {c : Node} {l : String}
    (h : extractFtLink c = (l, true)) :
    ∃ raw, ftPathOk raw = true ∧ l = futuretools_base_url ++ raw := by
  unfold extractFtLink at h
  rcases hr : extractFtLinkRaw c with ⟨sl, sb⟩
  rw [hr] at h
  cases sb with
  | false => simp at h
  | true =>
    have hft := extractFtLinkRaw_true hr
    have hsl : pyStartsWith sl "/" = true := ftPathOk_slash hft
    simp only [hsl, Bool.and_self, if_pos] at h
    exact ⟨sl, hft, (congrArg Prod.fst h).symm⟩

theorem extractFtLink_true_ne_na {c : Node} {l : String}
    (h : extractFtLink c = (l, true)) : l ≠ "N/A" := by
  obtain ⟨raw, -, hval⟩ := extractFtLink_true h
  rw [hval]
  exact base_append_ne_na raw

theorem extractWebsiteLink_true {c : Node} {f w : String}
    (h : extractWebsiteLink c f = (w, true)) :
    pyStartsWith w "http" = true ∧ pyContains w "futuretools.io" = false := by
  unfold extractWebsiteLink at h
  split at h
  · rename_i e hfind
    split at h
    · rename_i hvalid
      unfold validExternalHref at hvalid
      rw [Bool.and_eq_true, Bool.and_eq_true] at hvalid
      have hw : w = e.attrD "href" "" := (congrArg Prod.fst h).symm
      rw [hw]
      refine ⟨hvalid.1.2, ?_⟩
      simpa using hvalid.2
    · exact absurd (congrArg Prod.snd h) Bool.false_ne_true
  · split at h
    · rename_i e hfind2
      have hp := List.find?_some hfind2
      rw [Bool.and_eq_true, Bool.and_eq_true] at hp
      have hw : w = e.attrD "href" "" := (congrArg Prod.fst h).symm
      rw [hw]
      refine ⟨hp.1.1, ?_⟩
      simpa using hp.1.2
    · exact absurd (congrArg Prod.snd h) Bool.false_ne_true

theorem extractName_true {c : Node} :
    (extractName c).2 = true → (extractName c).1 ≠ "" := by
  unfold extractName
  cases findNameElement c name_element_selectors with
  | none => intro h; exact absurd h (by decide)
  | some e => intro h; exact bne_iff_ne.mp h

theorem processContainer_record_eq {sm : String → Nat → Nat → String} {c : Node}
    {r : ToolRecord} (h : (processContainer sm c).record = some r) :
    (extractName c).2 = true ∧
    ((extractWebsiteLink c (extractFtLink c).1).2 = true ∨ (extractFtLink c).2 = true) ∧
    r = ⟨(extractName c).1,
         (extractWebsiteLink c (extractFtLink c).1).1,
         (extractFtLink c).1,
         (extractedDescription c).1,
         summarizedDescription sm c⟩ := by
  simp only [processContainer] at h
  split at h
  · rename_i hcond
    rw [Bool.and_eq_true] at hcond
    obtain ⟨hname, hlinks⟩ := hcond
    rw [Bool.or_eq_true] at hlinks
    exact ⟨hname, hlinks, (Option.some_inj.mp h).symm⟩
  · split at h
    · exact Option.noConfusion h
    · exact Option.noConfusion h

theorem processContainers_mem {sm : String → Nat → Nat → String} {l : List Node}
    {r : ToolRecord} (h : r ∈ (processContainers sm l).1) :
    ∃ c ∈ l, (processContainer sm c).record = some r := by
  induction l with
  | nil => simp [processContainers] at h
  | cons c rest ih =>
    simp only [processContainers] at h
    rcases hrec : (processContainer sm c).record with - | t
    · rw [hrec] at h
      obtain ⟨c2, hc2, hr2⟩ := ih h
      exact ⟨c2, List.mem_cons_of_mem _ hc2, hr2⟩
    · rw [hrec] at h
      rcases List.mem_cons.mp h with heq | hmem
      · exact ⟨c, List.mem_cons_self _ _, heq ▸ hrec⟩
      · obtain ⟨c2, hc2, hr2⟩ := ih hmem
        exact ⟨c2, List.mem_cons_of_mem _ hc2, hr2⟩

theorem extract_mem {sm : String → Nat → Nat → String} {pd : Option Node}
    {r : ToolRecord} (h : r ∈ (extract_tools_from_futuretools sm pd).1) :
    ∃ c, (processContainer sm c).record = some r := by
  cases pd with
  | none => simp [extract_tools_from_futuretools] at h
  | some soup =>
    simp only [extract_tools_from_futuretools] at h
    split at h
    · split at h
      · exact absurd h (List.not_mem_nil r)
      · obtain ⟨c, -, hc⟩ := processContainers_mem h
        exact ⟨c, hc⟩
    · obtain ⟨c, -, hc⟩ := processContainers_mem h
      exact ⟨c, hc⟩

theorem extractDescriptionBase_false {c : Node} {v : String}
    (h : extractDescriptionBase c = (v, false)) : v = "N/A" ∨ v = "" := by
  unfold extractDescriptionBase at h
  split at h
  · rename_i e hfind
    right
    have h1 : e.getTextStrip = v := congrArg Prod.fst h
    have h2 : (e.getTextStrip != "") = false := congrArg Prod.snd h
    rw [← h1]
    simpa using h2
  · split at h
    · exact Bool.noConfusion (congrArg Prod.snd h)
    · left
      exact (congrArg Prod.fst h).symm

theorem extractDescription_false {c : Node} {n : String} {hn : Bool} {f v : String}
    (h : extractDescription c n hn f = (v, false)) : v = "N/A" ∨ v = "" := by
  simp only [extractDescription] at h
  split at h
  · split at h
    · split at h
      · exact Bool.noConfusion (congrArg Prod.snd h)
      · exact extractDescriptionBase_false h
    · split at h
      · exact Bool.noConfusion (congrArg Prod.snd h)
      · exact extractDescriptionBase_false h
  · exact extractDescriptionBase_false h

theorem extractWebsiteLink_false {c : Node} {f w : String}
    (h : extractWebsiteLink c f = (w, false)) : w = "N/A" := by
  unfold extractWebsiteLink at h
  split at h
  · split at h
    · exact Bool.noConfusion (congrArg Prod.snd h)
    · exact (congrArg Prod.fst h).symm
  · split at h
    · exact Bool.noConfusion (congrArg Prod.snd h)
    · exact (congrArg Prod.fst h).symm

theorem summarizedDescription_spec (sm : String → Nat → Nat → String) (c : Node)
    (dv : String) (db : Bool) (hd : extractedDescription c = (dv, db)) :
    (db = true → pyWordCount dv > 30 → summarizedDescription sm c = sm dv 50 15) ∧
    (db = true → ¬ (pyWordCount dv > 30) → summarizedDescription sm c = dv) ∧
    (db = false → summarizedDescription sm c = "N/A" ∧ (dv = "N/A" ∨ dv = "")) := by
  refine ⟨?_, ?_, ?_⟩
  · intro hb hw
    simp only [summarizedDescription, hd]
    rw [hb]
    simp [hw]
  · intro hb hw
    simp only [summarizedDescription, hd]
    rw [hb]
    simp [hw]
  · intro hb
    constructor
    · simp only [summarizedDescription, hd]
      rw [hb]
      simp
    · have hd2 : extractDescription c (extractName c).1 (extractName c).2
          (extractFtLink c).1 = (dv, false) := by
        rw [← hb]
        exact hd
      exact extractDescription_false hd2

/-- C1: every ToolRecord in the list returned by
`extract_tools_from_futuretools` has a non-empty `name`, and at least one of
`website_link` and `futuretools_link` differs from the "N/A" sentinel. -/
theorem toolRecord_invariant (sm : String → Nat → Nat → String) (pd : Option Node)
    (r : ToolRecord) (h : r ∈ (extract_tools_from_futuretools sm pd).1) :
    r.name ≠ "" ∧ (r.website_link ≠ "N/A" ∨ r.futuretools_link ≠ "N/A") := by
  obtain ⟨c, hc⟩ := extract_mem h
  obtain ⟨hname, hlinks, hr⟩ := processContainer_record_eq hc
  subst hr
  refine ⟨extractName_true hname, ?_⟩
  rcases hlinks with hw | hf
  · left
    rcases hwp : extractWebsiteLink c (extractFtLink c).1 with ⟨wv, wb⟩
    have hb : wb = true := by rw [hwp] at hw; exact hw
    subst hb
    have hprops := extractWebsiteLink_true hwp
    simp only [hwp]
    exact startsWith_http_ne_na hprops.1
  · right
    rcases hfp : extractFtLink c with ⟨fv, fb⟩
    have hb : fb = true := by rw [hfp] at hf; exact hf
    subst hb
    simp only [hfp]
    exact extractFtLink_true_ne_na hfp

theorem toolRecord_invariant_witness :
    (⟨"Alpha", "https://alpha.ai", "https://www.futuretools.io/tool/alpha",
      "N/A", "N/A"⟩ : ToolRecord).name ≠ "" ∧
    ((⟨"Alpha", "https://alpha.ai", "https://www.futuretools.io/tool/alpha",
      "N/A", "N/A"⟩ : ToolRecord).website_link ≠ "N/A" ∨
     (⟨"Alpha", "https://alpha.ai", "https://www.futuretools.io/tool/alpha",
      "N/A", "N/A"⟩ : ToolRecord).futuretools_link ≠ "N/A") :=
  toolRecord_invariant smId (some sampleTallyPage) _ (by decide)

/-- C2: `extract_tools_from_futuretools` never fails for absent or malformed
input: a failed fetch yields the empty list and an all-zero tally, and a
document in which neither the "tool-card" selector nor the
"item"/"collection-item" selector matches yields the empty list and a tally
reporting zero containers examined. -/
theorem extract_absent_input_safe :
    (∀ sm : String → Nat → Nat → String,
       extract_tools_from_futuretools sm none = ([], ⟨0, 0, 0, 0, 0, 0⟩)) ∧
    (∀ (sm : String → Nat → Nat → String) (soup : Node),
       soup.selectClassContainsAny ["tool-card"] = [] →
       soup.selectClassContainsAny ["item", "collection-item"] = [] →
       extract_tools_from_futuretools sm (some soup) = ([], ⟨0, 0, 0, 0, 0, 0⟩)) := by
  refine ⟨fun sm => rfl, fun sm soup h1 h2 => ?_⟩
  simp [extract_tools_from_futuretools, h1, h2]

theorem extract_absent_input_safe_witness :
    extract_tools_from_futuretools smId (some soupNoContainers) =
      ([], ⟨0, 0, 0, 0, 0, 0⟩) :=
  extract_absent_input_safe.2 smId soupNoContainers rfl rfl

/-- C3: a website link is only ever assigned from an href that starts with
"http" and does not contain the source domain, so every output record carries
either the sentinel or an off-domain absolute link; a class-marked candidate
failing that test resets the link to the sentinel without consulting the
fallback; and the fallback accepts only hrefs passing the same test that
differ from the resolved directory link. -/
theorem website_link_policy :
    (∀ (sm : String → Nat → Nat → String) (pd : Option Node) (r : ToolRecord),
       r ∈ (extract_tools_from_futuretools sm pd).1 →
       r.website_link = "N/A" ∨
       (pyStartsWith r.website_link "http" = true ∧
        pyContains r.website_link "futuretools.io" = false)) ∧
    (∀ (c : Node) (f : String) (e : Node),
       c.findElem ["a"] (some external_link_classes) = some e →
       validExternalHref (e.attrD "href" "") = false →
       extractWebsiteLink c f = ("N/A", false)) ∧
    (∀ (c : Node) (f w : String),
       c.findElem ["a"] (some external_link_classes) = none →
       extractWebsiteLink c f = (w, true) →
       pyStartsWith w "http" = true ∧ pyContains w "futuretools.io" = false ∧ w ≠ f) := by
  refine ⟨?_, ?_, ?_⟩
  · intro sm pd r h
    obtain ⟨c, hc⟩ := extract_mem h
    obtain ⟨-, -, hr⟩ := processContainer_record_eq hc
    subst hr
    rcases hwp : extractWebsiteLink c (extractFtLink c).1 with ⟨wv, wb⟩
    simp only [hwp]
    cases wb with
    | false => exact Or.inl (extractWebsiteLink_false hwp)
    | true => exact Or.inr (extractWebsiteLink_true hwp)
  · intro c f e hfind hinvalid
    simp only [extractWebsiteLink, hfind]
    rw [hinvalid]
    simp
  · intro c f w hnone h
    unfold extractWebsiteLink at h
    rw [hnone] at h
    rcases hfind2 : c.findAllLinks.find? (fun e =>
        pyStartsWith (e.attrD "href" "") "http" &&
        !(pyContains (e.attrD "href" "") "futuretools.io") &&
        (e.attrD "href" "") != f) with - | e
    · rw [hfind2] at h
      exact Bool.noConfusion (congrArg Prod.snd h)
    · rw [hfind2] at h
      have hp := List.find?_some hfind2
      rw [Bool.and_eq_true, Bool.and_eq_true] at hp
      have hw : w = e.attrD "href" "" := (congrArg Prod.fst h).symm
      subst hw
      refine ⟨hp.1.1, by simpa using hp.1.2, bne_iff_ne.mp hp.2⟩

theorem website_link_policy_witness :
    ((⟨"Alpha", "https://alpha.ai", "https://www.futuretools.io/tool/alpha",
       "N/A", "N/A"⟩ : ToolRecord).website_link = "N/A" ∨
     (pyStartsWith (⟨"Alpha", "https://alpha.ai",
        "https://www.futuretools.io/tool/alpha", "N/A", "N/A"⟩ : ToolRecord).website_link
        "http" = true ∧
      pyContains (⟨"Alpha", "https://alpha.ai",
        "https://www.futuretools.io/tool/alpha", "N/A", "N/A"⟩ : ToolRecord).website_link
        "futuretools.io" = false)) ∧
    extractWebsiteLink sampleSameDomainContainer "N/A" = ("N/A", false) ∧
    (pyStartsWith "https://ex.com" "http" = true ∧
     pyContains "https://ex.com" "futuretools.io" = false ∧
     "https://ex.com" ≠ "N/A") :=
  ⟨website_link_policy.1 smId (some sampleTallyPage) _ (by decide),
   website_link_policy.2.1 sampleSameDomainContainer "N/A"
     (.elem "a" [("class", "external-link"), ("href", "https://www.futuretools.io/x")] [])
     rfl (by decide),
   website_link_policy.2.2 sampleFallbackExtContainer "N/A" "https://ex.com"
     rfl (by decide)⟩

/-- C4 counterexample: on a container whose primary stage finds a class-marked
heading with empty text while a plain link with text "GoodName" is available
to a later stage, the specified chain (empty text disqualifies at every
stage, chain continues) resolves "GoodName", but the code terminates the
chain at the empty heading and leaves the name unresolved. -/
theorem name_extraction_counterexample :
    nameChainPerSpec sampleEmptyHeadingContainer = some "GoodName" ∧
    extractName sampleEmptyHeadingContainer = ("", false) :=
  ⟨by decide, by decide⟩

/-- C4 amended: the name chain tries its stages in order, but empty trimmed
text disqualifies a candidate only at the final first-link stage (where the
chain then ends unresolved); at the primary stage (and likewise the other
earlier stages) a found element ends the chain regardless of its text, the
name resolving only if that text is non-empty. -/
theorem name_extraction_amended :
    (∀ (c : Node) (e : Node),
       c.findElem ["h2", "h3", "h4"] (some ["tool-name", "tool-title", "card-title"]) =
         some e →
       extractName c = (e.getTextStrip, e.getTextStrip != "")) ∧
    (∀ (c : Node) (e : Node),
       c.findElem ["h2", "h3", "h4"] (some ["tool-name", "tool-title", "card-title"]) =
         none →
       c.findElem ["h2", "h3", "h4"] none = none →
       c.findElem ["a"] (some ["title", "name"]) = none →
       c.findElem ["a"] none = some e →
       e.getTextStrip = "" →
       extractName c = ("N/A", false)) := by
  constructor
  · intro c e h1
    simp [extractName, findNameElement, name_element_selectors, h1]
  · intro c e h1 h2 h3 h4 h5
    simp [extractName, findNameElement, name_element_selectors, h1, h2, h3, h4, h5]

theorem name_extraction_amended_witness :
    extractName sampleOnlyEmptyHeading = ("", false) ∧
    extractName sampleOnlyEmptyLink = ("N/A", false) := by
  constructor
  · have h := name_extraction_amended.1 sampleOnlyEmptyHeading
      (Node.elem "h2" [("class", "card-title")] []) rfl
    exact h.trans (by decide)
  · exact name_extraction_amended.2 sampleOnlyEmptyLink (Node.elem "a" [] [])
      rfl rfl rfl rfl (by decide)

/-- C5: a resolved directory link always comes from an href matching one of
the internal prefixes and is stored as that path prefixed with the base
origin; in particular the href "/tool/acme-ai" yields
"https://www.futuretools.io/tool/acme-ai". -/
theorem ft_link_absolutized :
    (∀ (c : Node) (l : String), extractFtLink c = (l, true) →
       ∃ raw, ftPathOk raw = true ∧ l = futuretools_base_url ++ raw) ∧
    extractFtLink sampleAcmeContainer = ("https://www.futuretools.io/tool/acme-ai", true) :=
  ⟨fun _ _ h => extractFtLink_true h, by decide⟩

theorem ft_link_absolutized_witness :
    ∃ raw, ftPathOk raw = true ∧
      "https://www.futuretools.io/tool/acme-ai" = futuretools_base_url ++ raw :=
  ft_link_absolutized.1 sampleAcmeContainer "https://www.futuretools.io/tool/acme-ai"
    (by decide)

/-- C6 counterexample: a container with a class-marked description element of
empty text is accepted with `description = ""` but
`summarized_description = "N/A"`, so in the unresolved-description case the
two fields are not both the sentinel and are not equal. -/
theorem summarization_hook_counterexample :
    (extract_tools_from_futuretools smId (some sampleEmptyDescPage)).1 =
      [⟨"K", "N/A", "https://www.futuretools.io/tool/k", "", "N/A"⟩] ∧
    ("" : String) ≠ "N/A" :=
  ⟨by decide, by decide⟩

/-- C6 amended: with a resolved description of more than 30 words the
summarizer is called with bounds (50, 15); with a resolved description of at
most 30 words the description is passed through unchanged; with no resolved
description `summarized_description` is the "N/A" sentinel while
`description` is either the sentinel or the empty string (the latter when a
class-marked description element with empty text was found). -/
theorem summarization_hook_amended (sm : String → Nat → Nat → String) (c : Node)
    (dv : String) (db : Bool) (hd : extractedDescription c = (dv, db)) :
    (db = true → pyWordCount dv > 30 → summarizedDescription sm c = sm dv 50 15) ∧
    (db = true → ¬ (pyWordCount dv > 30) → summarizedDescription sm c = dv) ∧
    (db = false → summarizedDescription sm c = "N/A" ∧ (dv = "N/A" ∨ dv = "")) :=
  summarizedDescription_spec sm c dv db hd

theorem summarization_hook_amended_witness :
    summarizedDescription smId sampleLongDescContainer = longDescText ∧
    summarizedDescription smId sampleShortDescContainer =
      "a compact description of this tool" ∧
    (summarizedDescription smId sampleEmptyDescContainer = "N/A" ∧
     (("" : String) = "N/A" ∨ ("" : String) = "")) := by
  refine ⟨?_, ?_, ?_⟩
  · exact (summarization_hook_amended smId sampleLongDescContainer longDescText true
      (by decide)).1 rfl (by decide)
  · exact (summarization_hook_amended smId sampleShortDescContainer
      "a compact description of this tool" true (by decide)).2.1 rfl (by decide)
  · exact (summarization_hook_amended smId sampleEmptyDescContainer "" false
      (by decide)).2.2 rfl

/-- C7 counterexample: with the pipeline disabled, a 31-word resolved
description yields the fixed explanatory message as
`summarized_description`, not the unsummarized input text. -/
theorem disabled_summarizer_counterexample :
    (extract_tools_from_futuretools smDisabled (some sampleLongDescPage)).1 =
      [⟨"T", "N/A", "https://www.futuretools.io/tool/t", longDescText,
        pipeline_not_initialized_msg⟩] ∧
    pipeline_not_initialized_msg ≠ longDescText :=
  ⟨by decide, by decide⟩

/-- C7 amended: with the pipeline disabled, `summarize_text` always returns
the fixed explanatory stand-in message (it is total, so extraction never
blocks or fails), and every extracted record then carries as
`summarized_description` either its unchanged description, that stand-in
message (descriptions of more than 30 words), or the sentinel. -/
theorem disabled_summarizer_degrades :
    (∀ (text : PyText) (max_length min_length : Nat),
       summarize_text none text max_length min_length = pipeline_not_initialized_msg) ∧
    (∀ (pd : Option Node) (r : ToolRecord),
       r ∈ (extract_tools_from_futuretools smDisabled pd).1 →
       r.summarized_description = r.description ∨
       r.summarized_description = pipeline_not_initialized_msg ∨
       r.summarized_description = "N/A") := by
  constructor
  · intro text ml mn
    rfl
  · intro pd r h
    obtain ⟨c, hc⟩ := extract_mem h
    obtain ⟨-, -, hr⟩ := processContainer_record_eq hc
    subst hr
    rcases hd : extractedDescription c with ⟨dv, db⟩
    have hspec := summarizedDescription_spec smDisabled c dv db hd
    cases db with
    | false =>
      right; right
      exact (hspec.2.2 rfl).1
    | true =>
      by_cases hw : pyWordCount dv > 30
      · right; left
        have h1 := hspec.1 rfl hw
        exact h1.trans rfl
      · left
        exact hspec.2.1 rfl hw

theorem disabled_summarizer_degrades_witness :
    (⟨"T", "N/A", "https://www.futuretools.io/tool/t", longDescText,
      pipeline_not_initialized_msg⟩ : ToolRecord).summarized_description =
      (⟨"T", "N/A", "https://www.futuretools.io/tool/t", longDescText,
        pipeline_not_initialized_msg⟩ : ToolRecord).description ∨
    (⟨"T", "N/A", "https://www.futuretools.io/tool/t", longDescText,
      pipeline_not_initialized_msg⟩ : ToolRecord).summarized_description =
      pipeline_not_initialized_msg ∨
    (⟨"T", "N/A", "https://www.futuretools.io/tool/t", longDescText,
      pipeline_not_initialized_msg⟩ : ToolRecord).summarized_description = "N/A" :=
  disabled_summarizer_degrades.2 (some sampleLongDescPage) _ (by decide)

/-- C8 evidence: on a document with one accepted container (name, directory
link and website link all resolved), one rejected name-only container and one
nameless container, the code reports missing_website_links_count = 1 and
missing_ft_links_count = 1 (both contributed by the rejected container, which
the tally labels as counting among extracted records only) and a
missing-names figure of 1 although a record was accepted. -/
theorem tally_counts_rejected_containers :
    (extract_tools_from_futuretools smId (some sampleTallyPage)).2 =
      ⟨3, 1, 1, 1, 1, 1⟩ ∧
    (extract_tools_from_futuretools smId (some sampleTallyPage)).1 =
      [⟨"Alpha", "https://alpha.ai", "https://www.futuretools.io/tool/alpha",
        "N/A", "N/A"⟩] ∧
    reported_missing_names 3 1 1 = 1 :=
  ⟨by decide, by decide, by decide⟩

/-- C9 counterexample: on generic page data with empty link and video
collections, the paragraphs format emits only the header and the main-text
message; it contains no "No hyperlinks extracted." and no "No YouTube videos
identified." line, so the empty sections are omitted silently. -/
theorem paragraphs_format_counterexample :
    format_data_as_paragraphs none (.page pageEmpty) "generic_website" =
      .ok "--- Website Content (Paragraph Format) ---\n\nNo main text content extracted to summarize." ∧
    pyContains "--- Website Content (Paragraph Format) ---\n\nNo main text content extracted to summarize."
      "No hyperlinks extracted." = false ∧
    pyContains "--- Website Content (Paragraph Format) ---\n\nNo main text content extracted to summarize."
      "No YouTube videos identified." = false :=
  ⟨rfl, by decide, by decide⟩

/-- C9 amended: on generic page data with empty link and video collections,
the list format emits the explicit lines "No hyperlinks extracted." and
"No YouTube videos identified.", while the paragraphs format omits both
sections (with empty main text its whole output is the header plus the
main-text message). -/
theorem none_found_lines_amended (summarizer : Option (String → Nat → Nat → ModelResult))
    (d : PageData) (hl : d.links = []) (hv : d.youtube_videos = []) :
    format_data_as_list (.page d) "generic_website" =
      .ok "--- Website Content (List Format) ---\n\nNo hyperlinks extracted.\n\nNo YouTube videos identified." ∧
    (d.text = "" →
      format_data_as_paragraphs summarizer (.page d) "generic_website" =
        .ok "--- Website Content (Paragraph Format) ---\n\nNo main text content extracted to summarize.") := by
  obtain ⟨t, l, v, sp⟩ := d
  simp only at hl hv
  subst hl
  subst hv
  constructor
  · rfl
  · intro ht
    simp only at ht
    subst ht
    rfl

theorem none_found_lines_amended_witness :
    format_data_as_list (.page pageEmpty) "generic_website" =
      .ok "--- Website Content (List Format) ---\n\nNo hyperlinks extracted.\n\nNo YouTube videos identified." ∧
    format_data_as_paragraphs none (.page pageEmpty) "generic_website" =
      .ok "--- Website Content (Paragraph Format) ---\n\nNo main text content extracted to summarize." :=
  ⟨(none_found_lines_amended none pageEmpty rfl rfl).1,
   (none_found_lines_amended none pageEmpty rfl rfl).2 rfl⟩

/-- C10: with an initialized pipeline, `summarize_text` returns the fixed
message "Input text is empty or invalid." on empty, non-string and
whitespace-only input, for every model function (so without invoking the
model) and without failing; with the pipeline disabled, the
disabled-pipeline message takes precedence for every input. -/
theorem summarize_text_input_validation :
    (∀ (model : String → Nat → Nat → ModelResult) (max_length min_length : Nat),
       summarize_text (some model) (.str "") max_length min_length = empty_input_msg) ∧
    (∀ (model : String → Nat → Nat → ModelResult) (max_length min_length : Nat)
       (s : String), pyStrip s = "" →
       summarize_text (some model) (.str s) max_length min_length = empty_input_msg) ∧
    (∀ (model : String → Nat → Nat → ModelResult) (max_length min_length : Nat),
       summarize_text (some model) .nonString max_length min_length = empty_input_msg) ∧
    (∀ (text : PyText) (max_length min_length : Nat),
       summarize_text none text max_length min_length = pipeline_not_initialized_msg) := by
  refine ⟨fun model ml mn => rfl, ?_, fun model ml mn => rfl, fun text ml mn => rfl⟩
  intro model ml mn s hs
  simp [summarize_text, hs]

theorem summarize_text_input_validation_witness :
    summarize_text (some modelConst) (.str " ") 150 30 = empty_input_msg :=
  summarize_text_input_validation.2.1 modelConst 150 30 " " (by decide)
